import Mathlib

/-!
Verification of the BYWOB voting application (`streamlit_app.py`,
`token_generator.py`) against its natural-language specification.

The mutable SQLite tables (`meta`, `voters`, `candidates`, `votes`, plus the
archive tables) are embedded as a Lean structure `DB`; every handler of the
Streamlit app that the claims mention is translated into a pure function from
(inputs, state) to (outcome, state).  Wall-clock reads (`now_cet()`) are
modelled by passing the current instant in, and where a handler reads the clock
several times the successive readings come from a `clock : Nat → String`
stream, one index per `now_cet()` call, in call order.  ISO-8601 parsing
(`datetime.fromisoformat`, which may raise) is an environment parameter
`parseIso : String → Option Int`, mapping a string to the instant it denotes
(`none` = the exception path); instants are integers (seconds), which makes
`to_cet` the identity since it never changes the instant denoted.
Randomness (`secrets.choice`) is a stream or list of drawn 6-character
suffixes, one entry per draw, in draw order.
-/

/-- The `meta` key/value table.  The app seeds every key with a default at
startup, so the dictionary is total and is embedded as a structure; values are
the stored strings. -/
structure Meta where
  status : String
  name : String
  start_cet : String
  end_cet : String
  published : String
  voting_link : String
deriving Repr, DecidableEq

/-- A row of the `voters` table (`used INTEGER` is 0/1 in SQLite, embedded as
`Bool`; `used_at TEXT` holds an ISO string, `""` when unset). -/
structure Voter where
  name : String
  email : String
  token : String
  used : Bool
  used_at : String
deriving Repr, DecidableEq

/-- A row of the `votes` table. -/
structure Vote where
  position : String
  candidate : String
  timestamp : String
deriving Repr, DecidableEq

/-- The whole persistent state: `meta`, `voters`, `candidates`
(position, candidate), `votes`, and the `votes_archive_*` side tables. -/
structure DB where
  meta : Meta
  voters : List Voter
  candidates : List (String × String)
  votes : List Vote
  archives : List (String × List Vote)
deriving Repr, DecidableEq

/-- `datetime.fromisoformat(m.get(k)) if m.get(k) else None` inside the `try`
block of `is_voting_open`: `some none` = field unset, `some (some t)` = parsed
instant `t`, `none` = the parse raised. -/
def parseField (parseIso : String → Option Int) (s : String) : Option (Option Int) :=
  if s = "" then some none else (parseIso s).map some

/-- `is_voting_open()` (streamlit_app.py:176-188).  Returns the boolean result
together with the `meta` state after the call (the call writes
`status = "ended"` on the lazy-timeout path, and only there). -/
def is_voting_open (parseIso : String → Option Int) (now : Int) (m : Meta) : Bool × Meta :=
  if m.status ≠ "ongoing" then (false, m)
  else
    match parseField parseIso m.start_cet, parseField parseIso m.end_cet with
    | some sdt, some edt =>
      if sdt.any (fun s => decide (now < s)) then (false, m)
      else if edt.any (fun e => decide (e < now)) then (false, { m with status := "ended" })
      else (true, m)
    | _, _ => (false, m)

-- Helper lemma: when the check answers `true` it has not touched `meta`.
theorem is_voting_open_true_meta {parseIso : String → Option Int} {now : Int} {m : Meta}
    (h : (is_voting_open parseIso now m).1 = true) :
    (is_voting_open parseIso now m).2 = m := by
  unfold is_voting_open at *
  by_cases hst : m.status ≠ "ongoing"
  · simp [hst] at h
  · simp only [hst, if_false] at *
    rcases hps : parseField parseIso m.start_cet with _ | sdt <;>
      rcases hpe : parseField parseIso m.end_cet with _ | edt <;>
        simp [hps, hpe] at h ⊢ <;> split_ifs at h ⊢ <;> simp_all

/-- Concrete environment for the C1 counterexample: `"S"` parses to instant 10,
`"E"` to instant 0, everything else raises. -/
def parseCE1 : String → Option Int := fun s =>
  if s = "S" then some 10 else if s = "E" then some 0 else none

/-- Meta state whose window is inverted (start = 10, end = 0): status is
`ongoing` and at `now = 5` the current time is strictly past `end_cet`. -/
def metaCE1 : Meta :=
  { status := "ongoing", name := "", start_cet := "S", end_cet := "E",
    published := "FALSE", voting_link := "" }

/-- C1, counterexample.  The claim says: *whenever* `status = "ongoing"` and
`now > end_time`, the very same `is_voting_open` evaluation writes
`status = "ended"`.  In the state `metaCE1` we have `status = "ongoing"` and
`now = 5 > 0 = end_time`, yet the evaluation returns `false` at the *start*
guard (`now < start_time = 10`) and returns with `meta` untouched — the next
read of `status` still observes `"ongoing"`, not `"ended"`. -/
theorem C1_counterexample :
    metaCE1.status = "ongoing" ∧
    parseCE1 metaCE1.end_cet = some 0 ∧ (0 : Int) < 5 ∧
    (is_voting_open parseCE1 5 metaCE1).1 = false ∧
    (is_voting_open parseCE1 5 metaCE1).2.status = "ongoing" := by
  refine ⟨rfl, rfl, by decide, by decide, by decide⟩

/-- C1, amended.  With the stored fields parsing successfully (`sdt`/`edt` are
the parsed optional instants), (1) `is_voting_open` returns `true` iff
`status = "ongoing"` and the start bound (unset or `now ≥ start`) and the end
bound (unset or `now ≤ end`) both hold; (2) *provided the start bound holds*,
if `status = "ongoing"` and `now > end_time` then the same evaluation both
returns `false` and writes `status = "ended"` to the meta store. -/
theorem C1_is_voting_open_characterization (parseIso : String → Option Int) (now : Int)
    (m : Meta) (sdt edt : Option Int)
    (hs : parseField parseIso m.start_cet = some sdt)
    (he : parseField parseIso m.end_cet = some edt) :
    ((is_voting_open parseIso now m).1 = true ↔
      (m.status = "ongoing" ∧ (∀ s, sdt = some s → s ≤ now) ∧ (∀ e, edt = some e → now ≤ e))) ∧
    ((m.status = "ongoing" ∧ (∀ s, sdt = some s → s ≤ now) ∧ (∃ e, edt = some e ∧ e < now)) →
      is_voting_open parseIso now m = (false, { m with status := "ended" })) := by
  unfold is_voting_open
  rw [hs, he]
  by_cases hst : m.status = "ongoing"
  · rcases sdt with _ | s <;> rcases edt with _ | e <;>
      simp [hst, Option.any] <;> split_ifs <;> simp_all
  · simp [hst]

/-- Concrete environment for the C1 witness: window `[1, 9]`. -/
def parseW1 : String → Option Int := fun s =>
  if s = "S1" then some 1 else if s = "E9" then some 9 else none

/-- Meta state for the C1 witness: ongoing election with window `[1, 9]`. -/
def metaW1 : Meta :=
  { status := "ongoing", name := "", start_cet := "S1", end_cet := "E9",
    published := "FALSE", voting_link := "" }

/-- Witness for `C1_is_voting_open_characterization` at a concrete state:
inside the window (`now = 5`) the check answers `true`; past the window
(`now = 12`) it answers `false` and persists `status = "ended"`. -/
theorem C1_witness :
    (is_voting_open parseW1 5 metaW1).1 = true ∧
    is_voting_open parseW1 12 metaW1 = (false, { metaW1 with status := "ended" }) := by
  constructor
  · exact (C1_is_voting_open_characterization parseW1 5 metaW1 (some 1) (some 9) rfl rfl).1.mpr
      ⟨rfl, fun s h => by injection h with h; omega, fun e h => by injection h with h; omega⟩
  · exact (C1_is_voting_open_characterization parseW1 12 metaW1 (some 1) (some 9) rfl rfl).2
      ⟨rfl, fun s h => by injection h with h; omega, ⟨9, rfl, by omega⟩⟩

/-- C9: if `status = "ongoing"` but one of the stored time strings is non-empty
and unparseable, `is_voting_open` takes the exception path: it returns `false`
and leaves the meta store exactly as it was (no `status = "ended"` write). -/
theorem C9_malformed_times (parseIso : String → Option Int) (now : Int) (m : Meta)
    (hst : m.status = "ongoing")
    (hbad : (m.start_cet ≠ "" ∧ parseIso m.start_cet = none) ∨
            (m.end_cet ≠ "" ∧ parseIso m.end_cet = none)) :
    is_voting_open parseIso now m = (false, m) := by
  unfold is_voting_open
  rcases hbad with ⟨hne, hp⟩ | ⟨hne, hp⟩
  · simp [parseField, hne, hp, hst]
  · rcases hps : parseField parseIso m.start_cet with _ | sdt <;>
      simp [parseField, hne, hp, hst, hps]

/-- Environment for the C9 witness: every parse raises. -/
def parseW9 : String → Option Int := fun _ => none

/-- Meta state for the C9 witness: ongoing, with an unparseable `start_cet`. -/
def metaW9 : Meta :=
  { status := "ongoing", name := "", start_cet := "not-a-date", end_cet := "",
    published := "FALSE", voting_link := "" }

/-- Witness for `C9_malformed_times` at a concrete malformed state. -/
theorem C9_witness : is_voting_open parseW9 0 metaW9 = (false, metaW9) :=
  C9_malformed_times parseW9 0 metaW9 rfl (Or.inl ⟨by decide, rfl⟩)

/-- Python `str.strip()` and SQL `TRIM`: drop whitespace at both ends.  (SQL
`TRIM` only strips spaces while Python strips all whitespace; no stored token
contains non-space whitespace, so one model serves both.) -/
def pyStrip (s : String) : String :=
  ⟨((s.data.dropWhile Char.isWhitespace).reverse.dropWhile Char.isWhitespace).reverse⟩

/-- Python `str.upper()` and SQL `UPPER` (ASCII uppercasing). -/
def pyUpper (s : String) : String := ⟨s.data.map Char.toUpper⟩

/-- `mark_token_used(token)` (streamlit_app.py:216-221): SQL
`UPDATE voters SET used=1, used_at=<now> WHERE UPPER(TRIM(token))=UPPER(TRIM(?))`
— every row whose trimmed, upper-cased token matches is flagged. -/
def mark_token_used (now : String) (token : String) (voters : List Voter) : List Voter :=
  voters.map (fun v =>
    if pyUpper (pyStrip v.token) == pyUpper (pyStrip token) then
      { v with used := true, used_at := now }
    else v)

/-- The `for p, c in selections.items(): append_vote(p, c)` loop of the
submission handler (streamlit_app.py:433-434).  Each `append_vote` call
(streamlit_app.py:223-228) INSERTs one row stamped with its *own*
`now_cet()` reading, so the loop consumes one clock tick per row; `t` is the
index of the next tick. -/
def append_votes (clock : Nat → String) : Nat → List (String × String) → List Vote → List Vote
  | _, [], vs => vs
  | t, (p, c) :: rest, vs => append_votes clock (t + 1) rest (vs ++ [⟨p, c, clock t⟩])

/-- Outcome of the ballot submission handler. -/
inductive SubmitOutcome where
  | incomplete (msg : String)
  | accepted
deriving Repr, DecidableEq

/-- The fixed error text shown when some position has no selection
(streamlit_app.py:431); it does not mention any position. -/
def incompleteMsg : String := "সবগুলো পজিশনে ভোট দিন।"

/-- The `if submitted:` handler of the vote form (streamlit_app.py:428-438).
`positions` is the session's `pos_to_cands` (position, options) list, `sels`
the per-position radio-widget selections, `token` the session token.  On a
complete ballot it appends one vote row per position (ticks `0..n-1` of
`clock`) and then marks the token used (tick `n`). -/
def submit_ballot (clock : Nat → String) (positions : List (String × List String))
    (sels : String → Option String) (token : String) (db : DB) : SubmitOutcome × DB :=
  let selections := positions.map (fun pc => (pc.1, sels pc.1))
  if selections.any (fun s => s.2.isNone) then
    (SubmitOutcome.incomplete incompleteMsg, db)
  else
    let chosen := selections.map (fun s => (s.1, s.2.getD ""))
    (SubmitOutcome.accepted,
      { db with
        votes := append_votes clock 0 chosen db.votes,
        voters := mark_token_used (clock chosen.length) token db.voters })

/-- Outcome of the "Proceed" (token intake) step of the vote tab. -/
inductive ProceedOutcome where
  | emptyToken
  | votingClosed (status : String)
  | invalidToken
  | tokenAlreadyUsed
  | noCandidates
  | ready (token : String) (pos_to_cands : List (String × List String))
deriving Repr, DecidableEq

/-- `pos_to_cands` construction (streamlit_app.py:404-407): positions in order
of first appearance (pandas `unique()`), each with the candidates declared for
it; `load_candidates_df` strips both columns first (streamlit_app.py:202-208). -/
def group_candidates (cands : List (String × String)) : List (String × List String) :=
  let stripped := cands.map (fun pc => (pyStrip pc.1, pyStrip pc.2))
  ((stripped.map Prod.fst).dedup).map
    (fun p => (p, (stripped.filter (fun pc => pc.1 == p)).map Prod.snd))

/-- The "Proceed" button handler of the vote tab (streamlit_app.py:380-413):
empty-token check, window check (which may itself write `status = "ended"`),
token lookup (trimmed, case-insensitive, first matching row), used check,
candidates-configured check, and finally the ballot session. -/
def proceed (parseIso : String → Option Int) (now : Int) (token : String) (db : DB) :
    ProceedOutcome × DB :=
  if token = "" then (ProceedOutcome.emptyToken, db)
  else
    let r := is_voting_open parseIso now db.meta
    let db1 := { db with meta := r.2 }
    if r.1 = false then (ProceedOutcome.votingClosed r.2.status, db1)
    else
      match db1.voters.find? (fun v => pyUpper (pyStrip v.token) == pyUpper (pyStrip token)) with
      | none => (ProceedOutcome.invalidToken, db1)
      | some v =>
        if v.used then (ProceedOutcome.tokenAlreadyUsed, db1)
        else if db1.candidates.isEmpty then (ProceedOutcome.noCandidates, db1)
        else (ProceedOutcome.ready (pyStrip token) (group_candidates db1.candidates), db1)

/-- C3: while voting is open, a Proceed with a token whose (first) matching
voter row is already `used` is rejected as token-already-used, and the entire
database — voters, votes, candidates, meta — is returned unchanged; since the
state is unchanged, repeating the submission any number of times leaves the
state fixed (and each repetition yields the same rejection). -/
theorem C3_used_token_rejected (parseIso : String → Option Int) (now : Int) (token : String)
    (db : DB) (v : Voter)
    (htok : token ≠ "")
    (hopen : (is_voting_open parseIso now db.meta).1 = true)
    (hfind : db.voters.find? (fun w => pyUpper (pyStrip w.token) == pyUpper (pyStrip token))
      = some v)
    (hused : v.used = true) :
    proceed parseIso now token db = (ProceedOutcome.tokenAlreadyUsed, db) ∧
    ∀ k, (fun d => (proceed parseIso now token d).2)^[k] db = db := by
  have hmeta := is_voting_open_true_meta hopen
  have h1 : proceed parseIso now token db = (ProceedOutcome.tokenAlreadyUsed, db) := by
    unfold proceed
    rw [if_neg htok]
    simp only [hmeta, hopen, hfind, hused]
    simp
  exact ⟨h1, fun k => Function.iterate_fixed (by rw [h1]) k⟩

/-- A meta state with voting open and no time bounds set. -/
def metaOpenW : Meta :=
  { status := "ongoing", name := "", start_cet := "", end_cet := "",
    published := "FALSE", voting_link := "" }

/-- Database for the C3 witness: one voter whose token `T1` is already used. -/
def dbW3 : DB :=
  { meta := metaOpenW,
    voters := [⟨"Ann", "ann@example.org", "T1", true, "t0"⟩],
    candidates := [("President", "Alice")],
    votes := [], archives := [] }

/-- Witness for `C3_used_token_rejected`: Proceed with the used token `T1`
is rejected and the state is a fixed point of repeated submission. -/
theorem C3_witness :
    proceed parseW9 0 "T1" dbW3 = (ProceedOutcome.tokenAlreadyUsed, dbW3) ∧
    (fun d => (proceed parseW9 0 "T1" d).2)^[3] dbW3 = dbW3 := by
  have h := C3_used_token_rejected parseW9 0 "T1" dbW3 ⟨"Ann", "ann@example.org", "T1", true, "t0"⟩
    (by decide) (by decide) (by decide) rfl
  exact ⟨h.1, h.2 3⟩

/-- Deterministic clock stream used by the concrete ballot scenarios: tick `0`
reads `"t0"`, tick `1` reads `"t1"`, later ticks read `"t2"`. -/
def clockW : Nat → String := fun n => if n = 0 then "t0" else if n = 1 then "t1" else "t2"

/-- Ballot session with two positions for the C5 counterexample. -/
def positionsW5 : List (String × List String) :=
  [("President", ["Alice", "Carol"]), ("Secretary", ["Bob"])]

/-- Selections missing exactly the `President` choice. -/
def selsMissingPres : String → Option String :=
  fun p => if p = "Secretary" then some "Bob" else none

/-- Selections missing exactly the `Secretary` choice. -/
def selsMissingSec : String → Option String :=
  fun p => if p = "President" then some "Alice" else none

/-- Database for the C5 counterexample. -/
def dbW5 : DB :=
  { meta := metaOpenW,
    voters := [⟨"", "", "T1", false, ""⟩],
    candidates := [("President", "Alice"), ("President", "Carol"), ("Secretary", "Bob")],
    votes := [], archives := [] }

/-- C5, counterexample.  The claim says an incomplete submission is rejected
with an error *naming exactly the set of positions lacking a selection*.  But
the handler emits one fixed message (streamlit_app.py:431): a ballot missing
exactly `President` and a ballot missing exactly `Secretary` — different,
disjoint missing sets — produce *identical* rejection outcomes, so the
rejection cannot name the missing positions. -/
theorem C5_counterexample :
    submit_ballot clockW positionsW5 selsMissingPres "T1" dbW5
      = (SubmitOutcome.incomplete incompleteMsg, dbW5) ∧
    submit_ballot clockW positionsW5 selsMissingSec "T1" dbW5
      = (SubmitOutcome.incomplete incompleteMsg, dbW5) ∧
    selsMissingPres "President" = none ∧ selsMissingPres "Secretary" = some "Bob" ∧
    selsMissingSec "President" = some "Alice" ∧ selsMissingSec "Secretary" = none := by
  refine ⟨by decide, by decide, rfl, rfl, rfl, rfl⟩

-- Helper: with a selection for every position, the `None in selections.values()`
-- guard of the submission handler is false.
theorem selections_none_false (positions : List (String × List String))
    (sels : String → Option String) (h : ∀ pc ∈ positions, (sels pc.1).isSome) :
    ((positions.map (fun pc => (pc.1, sels pc.1))).any (fun s => s.2.isNone)) = false := by
  rw [List.any_eq_false]
  rintro x hx
  rw [List.mem_map] at hx
  rcases hx with ⟨a, ha, rfl⟩
  have hsome := h a ha
  rcases hval : sels a.1 with _ | val
  · rw [hval] at hsome; simp at hsome
  · simp [hval]

/-- C5, amended.  A submission in which some configured position has no
selection is rejected — with the one fixed incomplete-ballot message, which
does not name the missing positions — and the database is returned unchanged
(in particular no Vote row is appended); a submission with a selection for
every configured position is accepted. -/
theorem C5_completeness_gate (clock : Nat → String) (positions : List (String × List String))
    (sels : String → Option String) (token : String) (db : DB) :
    ((∃ pc ∈ positions, sels pc.1 = none) →
      submit_ballot clock positions sels token db = (SubmitOutcome.incomplete incompleteMsg, db)) ∧
    ((∀ pc ∈ positions, (sels pc.1).isSome) →
      (submit_ballot clock positions sels token db).1 = SubmitOutcome.accepted) := by
  constructor
  · rintro ⟨pc, hmem, hnone⟩
    have hany : (positions.map (fun pc => (pc.1, sels pc.1))).any (fun s => s.2.isNone) = true := by
      simp only [List.any_eq_true, List.mem_map]
      exact ⟨(pc.1, sels pc.1), ⟨pc, hmem, rfl⟩, by simp [hnone]⟩
    unfold submit_ballot
    simp [hany]
  · intro h
    have hany := selections_none_false positions sels h
    unfold submit_ballot
    simp [hany]

/-- Complete selections over `positionsW5`, for the C5 witness. -/
def selsFullW5 : String → Option String :=
  fun p => if p = "President" then some "Carol" else if p = "Secretary" then some "Bob" else none

/-- Witness for `C5_completeness_gate`: the incomplete ballot missing
`President` is rejected with the database unchanged, and the fully-selected
ballot is accepted. -/
theorem C5_witness :
    submit_ballot clockW positionsW5 selsMissingPres "T1" dbW5
      = (SubmitOutcome.incomplete incompleteMsg, dbW5) ∧
    (submit_ballot clockW positionsW5 selsFullW5 "T1" dbW5).1 = SubmitOutcome.accepted := by
  constructor
  · exact (C5_completeness_gate clockW positionsW5 selsMissingPres "T1" dbW5).1
      ⟨("President", ["Alice", "Carol"]), by decide, rfl⟩
  · exact (C5_completeness_gate clockW positionsW5 selsFullW5 "T1" dbW5).2 (by decide)

/-- Ballot session with two positions for the C2 scenario. -/
def positionsW2 : List (String × List String) := [("President", ["Alice"]), ("Secretary", ["Bob"])]

/-- Complete selections over `positionsW2`. -/
def selsW2 : String → Option String :=
  fun p => if p = "President" then some "Alice" else if p = "Secretary" then some "Bob" else none

/-- Database for the C2 scenario: one unused voter `T1`, no votes yet. -/
def dbW2 : DB :=
  { meta := metaOpenW,
    voters := [⟨"", "", "T1", false, ""⟩],
    candidates := [("President", "Alice"), ("Secretary", "Bob")],
    votes := [], archives := [] }

/-- C2, counterexample.  The claim says all vote rows of one commit carry a
single shared timestamp, with `used_at` equal to that same timestamp.  But
`append_vote` and `mark_token_used` each call `now_cet()` afresh
(streamlit_app.py:223-228, 216-221), so with the clock advancing between the
calls (`t0`, `t1`, `t2`) the two vote rows of one accepted ballot carry
*different* timestamps and `used_at` differs from both. -/
theorem C2_counterexample :
    (submit_ballot clockW positionsW2 selsW2 "T1" dbW2).1 = SubmitOutcome.accepted ∧
    ((submit_ballot clockW positionsW2 selsW2 "T1" dbW2).2.votes.map Vote.timestamp)
      = ["t0", "t1"] ∧
    ((submit_ballot clockW positionsW2 selsW2 "T1" dbW2).2.voters.map Voter.used_at)
      = ["t2"] ∧
    ("t0" : String) ≠ "t1" ∧ ("t1" : String) ≠ "t2" := by
  refine ⟨by decide, by decide, by decide, by decide, by decide⟩

-- Helper: `enumFrom` commutes with `map` on the payload.
theorem enumFrom_map_payload {α β : Type} (f : α → β) :
    ∀ (n : Nat) (l : List α),
      List.enumFrom n (l.map f) = (List.enumFrom n l).map (fun ic => (ic.1, f ic.2))
  | _, [] => rfl
  | n, a :: l => by simp [List.enumFrom, enumFrom_map_payload f (n + 1) l]

-- Helper: the vote-append loop characterized in closed form — the row for the
-- i-th pair (counting from tick `t`) is stamped with `clock (t+i)`.
theorem append_votes_eq (clock : Nat → String) :
    ∀ (t : Nat) (l : List (String × String)) (vs : List Vote),
      append_votes clock t l vs =
        vs ++ (List.enumFrom t l).map (fun ic => ⟨ic.2.1, ic.2.2, clock ic.1⟩)
  | _, [], vs => by simp [append_votes]
  | t, (p, c) :: rest, vs => by
    simp [append_votes, append_votes_eq clock (t + 1) rest, List.enumFrom]

/-- C2, amended.  On a fully-selected ballot the handler appends exactly one
Vote row per (position, chosen candidate) pair — the row for the i-th position
stamped with the i-th clock reading (`now_cet()` is re-read per row, so the
rows share a timestamp only when the clock does not advance between appends) —
and only after all vote rows are appended marks the voter's token used, with
`used_at` equal to the *next* clock reading (tick `n` after rows `0..n-1`),
i.e. the writes happen in order (a) vote rows then (b) token flag. -/
theorem C2_commit_order (clock : Nat → String) (positions : List (String × List String))
    (sels : String → Option String) (token : String) (db : DB)
    (h : ∀ pc ∈ positions, (sels pc.1).isSome) :
    submit_ballot clock positions sels token db =
      (SubmitOutcome.accepted,
        { db with
          votes := db.votes ++
            positions.enum.map (fun ic => ⟨ic.2.1, (sels ic.2.1).getD "", clock ic.1⟩),
          voters := mark_token_used (clock positions.length) token db.voters }) := by
  have hany := selections_none_false positions sels h
  unfold submit_ballot
  simp only [hany, Bool.false_eq_true, if_false, List.map_map, Function.comp]
  rw [append_votes_eq, enumFrom_map_payload]
  simp [List.enum, List.map_map]

/-- Witness for `C2_commit_order` at the concrete two-position ballot: rows
stamped `t0`, `t1` in position order, then the token marked used at `t2`. -/
theorem C2_witness :
    submit_ballot clockW positionsW2 selsW2 "T1" dbW2 =
      (SubmitOutcome.accepted,
        { dbW2 with
          votes := dbW2.votes ++ positionsW2.enum.map
            (fun ic => ⟨ic.2.1, (selsW2 ic.2.1).getD "", clockW ic.1⟩),
          voters := mark_token_used (clockW positionsW2.length) "T1" dbW2.voters }) :=
  C2_commit_order clockW positionsW2 selsW2 "T1" dbW2 (by decide)

/-- The SQLite UNIQUE index on `voters.token`: an INSERT raises
`IntegrityError` iff the new token is exactly equal to a stored one. -/
def tokenClash (tok : String) (voters : List Voter) : Bool :=
  voters.any (fun v => v.token == tok)

/-- The row `("","",tok,0,"")` that `generate_tokens` INSERTs. -/
def mkVoter (tok : String) : Voter := ⟨"", "", tok, false, ""⟩

/-- The `for _ in range(int(n))` loop of `generate_tokens`
(streamlit_app.py:230-250).  `draws i` is the 6-character suffix produced by
the i-th evaluation of `"".join(secrets.choice(alpha) ...)`; each iteration
draws once, and on an `IntegrityError` (clash) draws once more and INSERTs the
second token with `INSERT OR IGNORE` — appending it to the returned list
whether or not the row was actually inserted. -/
def generate_tokens_loop (pfx : String) (draws : Nat → String) :
    Nat → Nat → List String × List Voter → List String × List Voter
  | 0, _, acc => acc
  | n + 1, i, (toks, voters) =>
    let tok := pfx ++ "-" ++ draws i
    if tokenClash tok voters then
      let tok2 := pfx ++ "-" ++ draws (i + 1)
      let voters2 := if tokenClash tok2 voters then voters else voters ++ [mkVoter tok2]
      generate_tokens_loop pfx draws n (i + 2) (toks ++ [tok2], voters2)
    else
      generate_tokens_loop pfx draws n (i + 1) (toks ++ [tok], voters ++ [mkVoter tok])

/-- `generate_tokens(n, prefix)` (streamlit_app.py:230-250): returns the list
of "newly generated" tokens together with the voters table after the call. -/
def generate_tokens (pfx : String) (n : Nat) (draws : Nat → String)
    (voters : List Voter) : List String × List Voter :=
  generate_tokens_loop pfx draws n 0 ([], voters)

/-- Random draws for the C4 failing input: the first draw is `AAAAAA`, the
second `BBBBBB`. -/
def drawsCE4 : Nat → String := fun i => if i = 0 then "AAAAAA" else "BBBBBB"

/-- Voters table for the C4 failing input: both `P-AAAAAA` and `P-BBBBBB`
already exist. -/
def votersCE4 : List Voter :=
  [⟨"x", "", "P-AAAAAA", false, ""⟩, ⟨"y", "", "P-BBBBBB", false, ""⟩]

/-- C4, evaluation at the failing input.  `generate_tokens(1, "P")` with both
drawn tokens already present: the first INSERT raises, the retry's
`INSERT OR IGNORE` silently ignores the second collision, yet the colliding
token is still appended to the returned list — so *zero* new voter rows are
inserted and the "generated" token `P-BBBBBB` equals an existing token,
contradicting the claimed n-new-unique-rows behaviour (and the function's own
docstring "Return list of newly generated tokens"). -/
theorem C4_generate_tokens_bug :
    generate_tokens "P" 1 drawsCE4 votersCE4 = (["P-BBBBBB"], votersCE4) ∧
    "P-BBBBBB" ∈ votersCE4.map Voter.token := by
  refine ⟨by decide, by decide⟩

/-- `token_exists(tok)` (streamlit_app.py:272-283), without `exclude_id`:
Python strips the argument, returns False on an empty result, else compares
`TRIM(token)=TRIM(?)` in SQL. -/
def token_exists (tok : String) (voters : List Voter) : Bool :=
  let t := pyStrip tok
  if t = "" then false
  else voters.any (fun v => pyStrip v.token == pyStrip t)

/-- `create_unique_token(prefix)` (streamlit_app.py:285-290).  The `while
True:` loop is driven by the stream of random 6-character suffixes it draws;
`draws` is the finite list of suffixes the stream produces, consumed in order,
and `none` is the outcome in which no drawn suffix ever escaped `token_exists`
(the loop has not terminated on those draws). -/
def create_unique_token (pfx : String) (draws : List String) (voters : List Voter) :
    Option String :=
  match draws with
  | [] => none
  | d :: rest =>
    let tok := pfx ++ "-" ++ d
    if token_exists tok voters then create_unique_token pfx rest voters
    else some tok

/-- The token alphabet `string.ascii_uppercase + string.digits`. -/
def tokenAlphabet : List Char := "ABCDEFGHIJKLMNOPQRSTUVWXYZ0123456789".data

/-- A well-formed random suffix: 6 characters drawn from `[A-Z0-9]`. -/
def wellFormedSuffix (d : String) : Bool :=
  d.data.length == 6 && d.data.all (fun c => tokenAlphabet.contains c)

/-- Voters table for the C10 counterexample: `P-AAAAAA` is taken. -/
def votersCE10 : List Voter := [⟨"", "", "P-AAAAAA", false, ""⟩]

/-- C10, counterexample.  The claim's precondition only asks that *some*
well-formed token (here `P-BBBBBB`) be absent from the voters table; it does
not constrain the random draws.  With a draw stream that produces only the
colliding suffix `AAAAAA`, `create_unique_token "P"` never escapes its loop
(no token is returned), so the precondition does not guarantee termination. -/
theorem C10_counterexample :
    wellFormedSuffix "BBBBBB" = true ∧
    token_exists "P-BBBBBB" votersCE10 = false ∧
    create_unique_token "P" ["AAAAAA", "AAAAAA", "AAAAAA"] votersCE10 = none := by
  refine ⟨by decide, by decide, by decide⟩

/-- C10, amended.  If the stream of random draws eventually yields a suffix
whose token is absent from the voters table (an event of probability 1 under
uniform draws whenever such a token exists at all), then `create_unique_token`
terminates and returns a token of the form `{prefix}-{6 chars from A-Z0-9}`
(given well-formed draws) for which `token_exists` is false at the moment of
return. -/
theorem C10_create_unique_token (pfx : String) (draws : List String) (voters : List Voter)
    (hwf : ∀ d ∈ draws, wellFormedSuffix d = true)
    (hfresh : ∃ d ∈ draws, token_exists (pfx ++ "-" ++ d) voters = false) :
    ∃ tok, create_unique_token pfx draws voters = some tok ∧
      token_exists tok voters = false ∧
      ∃ d, wellFormedSuffix d = true ∧ tok = pfx ++ "-" ++ d := by
  induction draws with
  | nil => simp at hfresh
  | cons d rest ih =>
    by_cases hc : token_exists (pfx ++ "-" ++ d) voters = true
    · have hfresh' : ∃ e ∈ rest, token_exists (pfx ++ "-" ++ e) voters = false := by
        rcases hfresh with ⟨e, he, hfe⟩
        rcases List.mem_cons.mp he with rfl | hmem
        · rw [hc] at hfe; exact absurd hfe (by simp)
        · exact ⟨e, hmem, hfe⟩
      have hwf' : ∀ e ∈ rest, wellFormedSuffix e = true :=
        fun e he => hwf e (List.mem_cons_of_mem d he)
      rcases ih hwf' hfresh' with ⟨tok, htok, hte, hshape⟩
      exact ⟨tok, by simpa [create_unique_token, hc] using htok, hte, hshape⟩
    · rw [Bool.not_eq_true] at hc
      exact ⟨pfx ++ "-" ++ d, by simp [create_unique_token, hc], hc,
        d, hwf d (List.mem_cons_self d rest), rfl⟩

/-- Witness for `C10_create_unique_token`: the first draw collides, the second
is fresh and is returned. -/
theorem C10_witness :
    ∃ tok, create_unique_token "P" ["AAAAAA", "CCCCCC"] votersCE10 = some tok ∧
      token_exists tok votersCE10 = false ∧
      ∃ d, wellFormedSuffix d = true ∧ tok = "P" ++ "-" ++ d :=
  C10_create_unique_token "P" ["AAAAAA", "CCCCCC"] votersCE10
    (by decide) ⟨"CCCCCC", by decide, by decide⟩

/-- The "Set & Schedule" button handler (streamlit_app.py:493-505).
`start_dt`/`end_dt` are the instants assembled from the admin's date/time
widgets, `ename` the election-name input; `fmtIso` is `datetime.isoformat`
(serialization of an instant to the stored string).  Validation: reject when
`end_dt <= start_dt`, reject when `end_dt <= now_cet()`; otherwise write name,
window, `status="scheduled"`, `published="FALSE"`. -/
def set_schedule (fmtIso : Int → String) (now : Int) (ename : String)
    (start_dt end_dt : Int) (m : Meta) : Meta :=
  if end_dt ≤ start_dt then m
  else if end_dt ≤ now then m
  else { m with name := ename, start_cet := fmtIso start_dt, end_cet := fmtIso end_dt,
                status := "scheduled", published := "FALSE" }

/-- C7: scheduling stores the given name and window, sets
`status = "scheduled"` and resets `published` only when `end > start` and
`end` is not already in the past (the handler in fact demands `now < end`);
whenever either validation fails (`end <= start`, or `end` in the past) the
meta store is left completely unchanged. -/
theorem C7_schedule_validation (fmtIso : Int → String) (now : Int) (ename : String)
    (s e : Int) (m : Meta) :
    ((e ≤ s ∨ e < now) → set_schedule fmtIso now ename s e m = m) ∧
    (set_schedule fmtIso now ename s e m ≠ m →
      (s < e ∧ now < e ∧
        set_schedule fmtIso now ename s e m =
          { m with name := ename, start_cet := fmtIso s, end_cet := fmtIso e,
                   status := "scheduled", published := "FALSE" })) := by
  unfold set_schedule
  constructor
  · rintro (h | h)
    · rw [if_pos h]
    · split_ifs with h1 h2
      · rfl
      · rfl
      · omega
  · intro hne
    split_ifs at hne ⊢ with h1 h2
    · exact absurd rfl hne
    · exact absurd rfl hne
    · exact ⟨by omega, by omega, rfl⟩

/-- Witness for `C7_schedule_validation`: an inverted window (start 5, end 3)
is rejected leaving meta untouched; a valid future window (start 3, end 5,
now 0) transitions to `scheduled` with the given fields stored. -/
theorem C7_witness :
    set_schedule (fun _ => "iso") 0 "Board" 5 3 metaOpenW = metaOpenW ∧
    set_schedule (fun _ => "iso") 0 "Board" 3 5 metaOpenW =
      { metaOpenW with name := "Board", start_cet := "iso", end_cet := "iso",
                       status := "scheduled", published := "FALSE" } := by
  constructor
  · exact (C7_schedule_validation (fun _ => "iso") 0 "Board" 5 3 metaOpenW).1 (Or.inl (by omega))
  · exact ((C7_schedule_validation (fun _ => "iso") 0 "Board" 3 5 metaOpenW).2 (by decide)).2.2

/-- The "Archive votes & reset voters" handler (streamlit_app.py:539-549):
`CREATE TABLE IF NOT EXISTS votes_archive_{ts} AS SELECT * FROM votes` (a
no-op if a table of that name already exists), then `DELETE FROM votes`, then
`UPDATE voters SET used = 0, used_at = ''`.  `ts` is
`now_cet().strftime("%Y%m%dT%H%M%S")`. -/
def archive_and_reset (ts : String) (db : DB) : DB :=
  let archive_table := "votes_archive_" ++ ts
  let archives :=
    if db.archives.any (fun a => a.1 == archive_table) then db.archives
    else db.archives ++ [(archive_table, db.votes)]
  { db with
    archives := archives,
    votes := [],
    voters := db.voters.map (fun v => { v with used := false, used_at := "" }) }

/-- C8: provided no archive table of the timestamped name already exists (the
`IF NOT EXISTS` no-op case), after archive-and-reset the votes table is empty,
the prior Vote rows are all preserved in the newly created
`votes_archive_{ts}` table, every voter has `used = false` with `used_at`
cleared, and the voters' identifying fields (name, email, token), the
candidates table and the meta store are unchanged. -/
theorem C8_archive_and_reset (ts : String) (db : DB)
    (hfresh : ∀ a ∈ db.archives, a.1 ≠ "votes_archive_" ++ ts) :
    (archive_and_reset ts db).votes = [] ∧
    ("votes_archive_" ++ ts, db.votes) ∈ (archive_and_reset ts db).archives ∧
    (archive_and_reset ts db).voters =
      db.voters.map (fun v => { v with used := false, used_at := "" }) ∧
    (∀ v ∈ (archive_and_reset ts db).voters, v.used = false ∧ v.used_at = "") ∧
    (archive_and_reset ts db).voters.map (fun v => (v.name, v.email, v.token)) =
      db.voters.map (fun v => (v.name, v.email, v.token)) ∧
    (archive_and_reset ts db).candidates = db.candidates ∧
    (archive_and_reset ts db).meta = db.meta := by
  have hany : db.archives.any (fun a => a.1 == ("votes_archive_" ++ ts)) = false := by
    rw [List.any_eq_false]
    intro a ha
    simpa using hfresh a ha
  unfold archive_and_reset
  simp only [hany, Bool.false_eq_true, if_false]
  refine ⟨by simp, by simp, by simp, ?_, by simp [List.map_map], by simp, by simp⟩
  intro v hv
  rw [List.mem_map] at hv
  rcases hv with ⟨w, _, rfl⟩
  exact ⟨rfl, rfl⟩

/-- Database for the C8 witness: one cast vote, one used and one unused
token, no archives yet. -/
def dbW8 : DB :=
  { meta := metaOpenW,
    voters := [⟨"A", "a@x", "T1", true, "u1"⟩, ⟨"B", "b@x", "T2", false, ""⟩],
    candidates := [("President", "Alice")],
    votes := [⟨"President", "Alice", "t0"⟩],
    archives := [] }

/-- Witness for `C8_archive_and_reset` at `dbW8` with timestamp
`20250101T000000`. -/
theorem C8_witness :
    (archive_and_reset "20250101T000000" dbW8).votes = [] ∧
    ("votes_archive_" ++ "20250101T000000", dbW8.votes)
      ∈ (archive_and_reset "20250101T000000" dbW8).archives ∧
    (archive_and_reset "20250101T000000" dbW8).voters =
      dbW8.voters.map (fun v => { v with used := false, used_at := "" }) ∧
    (∀ v ∈ (archive_and_reset "20250101T000000" dbW8).voters,
      v.used = false ∧ v.used_at = "") ∧
    (archive_and_reset "20250101T000000" dbW8).voters.map (fun v => (v.name, v.email, v.token)) =
      dbW8.voters.map (fun v => (v.name, v.email, v.token)) ∧
    (archive_and_reset "20250101T000000" dbW8).candidates = dbW8.candidates ∧
    (archive_and_reset "20250101T000000" dbW8).meta = dbW8.meta :=
  C8_archive_and_reset "20250101T000000" dbW8 (by decide)

/-- The pandas `groupby(["position","candidate"])` key order (lexicographic by
code point, candidate breaking position ties); `groupby` emits its groups with
keys sorted ascending by this order. -/
def pairLE (a b : String × String) : Prop :=
  a.1.data < b.1.data ∨ (a.1.data = b.1.data ∧ a.2.data ≤ b.2.data)

instance : DecidableRel pairLE := fun a b => by unfold pairLE; infer_instance

/-- The `sort_values(["position","votes"], ascending=[True,False])` order of
`results_df`: position ascending, vote count descending. -/
def rowLE (a b : String × String × Nat) : Prop :=
  a.1.data < b.1.data ∨ (a.1.data = b.1.data ∧ b.2.2 ≤ a.2.2)

instance : DecidableRel rowLE := fun a b => by unfold rowLE; infer_instance

instance : IsTotal (String × String × Nat) rowLE where
  total a b := by
    unfold rowLE
    rcases lt_trichotomy a.1.data b.1.data with h | h | h
    · exact Or.inl (Or.inl h)
    · rcases Nat.le_total b.2.2 a.2.2 with h2 | h2
      · exact Or.inl (Or.inr ⟨h, h2⟩)
      · exact Or.inr (Or.inr ⟨h.symm, h2⟩)
    · exact Or.inr (Or.inl h)

instance : IsTrans (String × String × Nat) rowLE where
  trans a b c hab hbc := by
    unfold rowLE at hab hbc ⊢
    rcases hab with h1 | ⟨h1, h1'⟩ <;> rcases hbc with h2 | ⟨h2, h2'⟩
    · exact Or.inl (h1.trans h2)
    · exact Or.inl (lt_of_lt_of_eq h1 h2)
    · exact Or.inl (lt_of_eq_of_lt h1 h2)
    · exact Or.inr ⟨h1.trans h2, Nat.le_trans h2' h1'⟩

/-- The number of Vote rows carrying exactly the pair `(p, c)` — what
`groupby(...).size()` reports for that group. -/
def voteCount (votes : List Vote) (p c : String) : Nat :=
  (votes.filter (fun v => v.position == p && v.candidate == c)).length

/-- `results_df()` (streamlit_app.py:265-269): group all Vote rows by
(position, candidate) and count each group (`groupby` sorts the group keys
ascending), then stable-sort by position ascending / votes descending
(pandas multi-column `sort_values` lexsorts stably). -/
def results_df (votes : List Vote) : List (String × String × Nat) :=
  let pairs := List.insertionSort pairLE ((votes.map (fun v => (v.position, v.candidate))).dedup)
  List.insertionSort rowLE (pairs.map (fun pc => (pc.1, pc.2, voteCount votes pc.1 pc.2)))

/-- C6: the results table has exactly one row per distinct
(position, candidate) pair appearing among the votes; a row `(p, c, k)` occurs
iff `(p, c)` occurs among the votes and `k` is the number of Vote rows with
exactly that pair; and the table is ordered by position ascending and, within
a position, by count descending. -/
theorem C6_results_tally (votes : List Vote) :
    ((results_df votes).map (fun r => (r.1, r.2.1))).Nodup ∧
    (∀ p c k, (p, c, k) ∈ results_df votes ↔
      ((p, c) ∈ votes.map (fun v => (v.position, v.candidate)) ∧ k = voteCount votes p c)) ∧
    List.Sorted rowLE (results_df votes) := by
  refine ⟨?_, ?_, ?_⟩
  · have hproj : List.Perm ((results_df votes).map (fun r => (r.1, r.2.1)))
        (List.insertionSort pairLE ((votes.map (fun v => (v.position, v.candidate))).dedup)) := by
      unfold results_df
      refine ((List.perm_insertionSort rowLE _).map _).trans ?_
      rw [List.map_map]
      have hid : ((fun r : String × String × Nat => (r.1, r.2.1)) ∘
          fun pc : String × String => (pc.1, pc.2, voteCount votes pc.1 pc.2)) = id := by
        funext pc
        rfl
      rw [hid, List.map_id]
    exact hproj.nodup_iff.mpr
      ((List.perm_insertionSort pairLE _).nodup_iff.mpr (List.nodup_dedup _))
  · intro p c k
    unfold results_df
    rw [(List.perm_insertionSort rowLE _).mem_iff, List.mem_map]
    constructor
    · rintro ⟨⟨p', c'⟩, hpc, heq⟩
      rw [(List.perm_insertionSort pairLE _).mem_iff, List.mem_dedup] at hpc
      obtain ⟨rfl, rfl, rfl⟩ : p' = p ∧ c' = c ∧ voteCount votes p' c' = k := by
        simpa [Prod.ext_iff] using heq
      exact ⟨hpc, rfl⟩
    · rintro ⟨hm, rfl⟩
      refine ⟨(p, c), ?_, rfl⟩
      rw [(List.perm_insertionSort pairLE _).mem_iff, List.mem_dedup]
      exact hm
  · unfold results_df
    exact List.sorted_insertionSort rowLE _

/-- Votes for the C6 witness: Alice twice and Bob once for President. -/
def votesW6 : List Vote :=
  [⟨"President", "Alice", "t0"⟩, ⟨"President", "Bob", "t1"⟩, ⟨"President", "Alice", "t2"⟩]

/-- Witness for `C6_results_tally` at `votesW6`: the Alice row carries count 2
and the output is sorted by the position-ascending/count-descending order. -/
theorem C6_witness :
    ("President", "Alice", 2) ∈ results_df votesW6 ∧
    List.Sorted rowLE (results_df votesW6) :=
  ⟨((C6_results_tally votesW6).2.1 "President" "Alice" 2).mpr ⟨by decide, by decide⟩,
   (C6_results_tally votesW6).2.2⟩
